import Mathlib

/-!
# Verification of the RGB+W LED generic driver core

Shallow embedding of `src/hwassyv/leds-rgbw-generic.c`: the duty-cycle
mapper (`pulse_color_update`, `rgbw_color_update`), the soft-PWM GPIO
timer callback, the four effect timer callbacks (pulse, blink, heartbeat,
rainbow) and the probe-time `lth_brightness` computation.

The driver's facade header `rgbw.h` is not part of the sources; the pieces
of it this development needs (the per-channel `rgbw_properties` fields
`brightness` / `max_brightness` / `cntr`, the `rgbw_actions` fields
`state` / `bstate` / `pcolor` / `rgbw_values`, the four active-effect flag
bits and the two tick-interval constants) are modelled from the spec and
from how the C file uses them, and are marked as such below.  C `int`
fields are embedded as `Int`, C `unsigned int` fields as `Nat` together
with explicit reductions modulo `2^32` at each arithmetic step where the C
code computes in 32-bit unsigned arithmetic.
-/

set_option maxRecDepth 4000

namespace Rgbw

/-- Modulus of C 32-bit unsigned arithmetic. -/
def U32 : Nat := 2 ^ 32

/-- Modulus of C 64-bit unsigned arithmetic. -/
def U64 : Nat := 2 ^ 64

/-- C `unsigned int` subtraction `a - b` (wraps modulo `2^32`). -/
def sub32 (a b : Nat) : Nat := (a % U32 + (U32 - b % U32)) % U32

/-- C `u64` subtraction `a - b` (wraps modulo `2^64`). -/
def sub64 (a b : Nat) : Nat := (a % U64 + (U64 - b % U64)) % U64

/-- C conversion of a signed `int` value to `unsigned int`. -/
def toU32 (i : Int) : Nat := (i % (U32 : Int)).toNat

/-- C conversion of a `u64` value to the signed 64-bit `ktime_t`. -/
def toS64 (n : Nat) : Int :=
  if n % U64 < 2 ^ 63 then ((n % U64 : Nat) : Int) else ((n % U64 : Nat) : Int) - (U64 : Int)

/-- The four color channels, `COLOR_RED .. COLOR_WHITE` (`MAX_COLORS = 4`). -/
inductive Color
  | red
  | green
  | blue
  | white
deriving DecidableEq, Fintype

/-- `enum rgbw_type`: each channel is hardware-PWM, GPIO (soft PWM), or invalid. -/
inductive RgbwType
  | pwm
  | gpio
  | invalid
deriving DecidableEq

/-- Per-channel `struct rgbw_properties` fields used by the driver
(declared in the missing `rgbw.h`; modelled from the spec and from the C
file's usage: `brightness` and `max_brightness` are read as C `int`
locals throughout the driver, `cntr` is the pulse-effect tick counter,
initialized to 0 by `rgbw_dt_probe` and only ever reset to 0 or
incremented). -/
structure RgbwProperties where
  brightness : Int
  max_brightness : Int
  cntr : Nat
deriving DecidableEq

/-- `struct rgbw_actions` fields used by the effect callbacks (declared in
the missing `rgbw.h`; modelled from the spec: `state` is the bitset of
active effects, `bstate` the effect-local step counter, `pcolor` the
channel targeted by the pulse effect, `rgbw_values` the saved per-channel
brightness snapshot). -/
structure RgbwActions where
  state : Nat
  bstate : Int
  pcolor : Color
  rgbw_values : Color → Int

/-- The global `struct rgbw_device` state the timer callbacks operate on. -/
structure RgbwDevice where
  props : Color → RgbwProperties
  acts : RgbwActions

/-- Modelled from the spec: the active-effect flag `RGBW_PULSE_ON` from the
missing `rgbw.h`.  The spec describes the four flags as distinct bits of a
bitset; the theorems below depend only on each being a fixed nonzero mask,
never on the concrete values. -/
def RGBW_PULSE_ON : Nat := 1

/-- Modelled from the spec: the `RGBW_BLINK_ON` flag bit (see `RGBW_PULSE_ON`). -/
def RGBW_BLINK_ON : Nat := 2

/-- Modelled from the spec: the `RGBW_HB_ON` flag bit (see `RGBW_PULSE_ON`). -/
def RGBW_HB_ON : Nat := 4

/-- Modelled from the spec: the `RGBW_RB_ON` flag bit (see `RGBW_PULSE_ON`). -/
def RGBW_RB_ON : Nat := 8

/-- Modelled from the spec: the pulse/rainbow tick interval
`PULSE_VALUE_PER_NS` from the missing `rgbw.h` (spec: a fixed tick of
roughly 10 ms).  No theorem below depends on its value. -/
def PULSE_VALUE_PER_NS : Nat := 10000000

/-- Modelled from the spec: the blink tick interval `BLINK_STATE_PER_NS`
from the missing `rgbw.h`.  No theorem below depends on its value. -/
def BLINK_STATE_PER_NS : Nat := 500000000

/-- The breathing lookup table `pulse_val_table` (leds-rgbw-generic.c:91-101). -/
def pulse_val_table : List Nat :=
  [0, 1, 2, 3, 4, 6, 8, 10, 13, 16, 20,
   24, 28, 34, 39, 45, 52, 60, 68, 77,
   86, 97, 107, 119, 130, 143, 155, 167,
   180, 192, 203, 214, 224, 233, 240, 246,
   251, 254, 254, 254, 251, 246, 240, 233,
   224, 214, 203, 192, 180, 167, 155, 143,
   130, 119, 107, 97, 86, 77, 68, 60, 52,
   45, 39, 34, 28, 24, 20, 16, 13, 10, 8,
   6, 4, 3, 2, 1, 0, 0, 0, 0]

/-- The fields of `struct pwm_rgbw_data` the update paths read: per-channel
backing type, shared PWM period (ns), minimum pulse width `lth_brightness`
(ns) and the optional brightness-levels table.  `period` and
`lth_brightness` are C `unsigned int` fields, hence values below `2^32`. -/
structure PwmRgbwData where
  types : Color → RgbwType
  period : Nat
  lth_brightness : Nat
  levels : Option (List Nat)

/-- The externally visible action an update path takes on one channel's
output: `pwm_config(0)+pwm_disable`, `pwm_config(duty)+pwm_enable`,
`hrtimer_start` of the channel's soft-PWM timer, or nothing. -/
inductive ChanAction
  | disableOut
  | configOut (duty_ns : Nat) (period_ns : Nat)
  | armSoftTimer
  | noAction
deriving DecidableEq

/-- The raw duty value `(pb->levels) ? pb->levels[brightness] : brightness`
(leds-rgbw-generic.c:126 and :169).  The C array read is in-bounds for the
configurations the theorems below consider; an out-of-bounds index (C
undefined behavior) is modelled by the default 0. -/
def rawDuty (pb : PwmRgbwData) (brightness : Int) : Nat :=
  match pb.levels with
  | some ls => ls.getD (toU32 brightness) 0
  | none => toU32 brightness

/-- The duty-cycle expression
`pb->lth_brightness + (duty_cycle * (pb->period - pb->lth_brightness) / max)`
(leds-rgbw-generic.c:128-129 and :171-172) in exact C arithmetic: the
subtraction, multiplication and addition are `unsigned int` operations
modulo `2^32`, and the division is `unsigned int` division (the C code
divides by the channel's `max_brightness`, which must be nonzero; all uses
below supply a positive `max`). -/
def dutyExpr (period lth raw max : Nat) : Nat :=
  (lth + raw * sub32 period lth % U32 / max) % U32

/-- Embeds the body of `pulse_color_update` (leds-rgbw-generic.c:105-142)
for channel `pcolor`: the action taken on that channel's output.
`timerActive c` models `hrtimer_active(&pb->soft_pwm[c].pwm_timer)`.  On
the device-tree probe path the platform data is zeroed, so `pb->notify`
and `pb->notify_after` are null and the brightness used is
`rgbw_dev->props[pcolor].brightness` unchanged. -/
def pulse_color_update (pb : PwmRgbwData) (dev : RgbwDevice)
    (timerActive : Color → Bool) (pcolor : Color) : ChanAction :=
  let brightness := (dev.props pcolor).brightness
  let max := (dev.props pcolor).max_brightness
  if pb.types pcolor = RgbwType.pwm then
    if brightness = 0 then
      ChanAction.disableOut
    else
      ChanAction.configOut (dutyExpr pb.period pb.lth_brightness (rawDuty pb brightness) (toU32 max)) pb.period
  else if pb.types pcolor = RgbwType.gpio ∧ ¬ timerActive pcolor then
    ChanAction.armSoftTimer
  else
    ChanAction.noAction

/-- Embeds the per-channel loop body of `rgbw_color_update`
(leds-rgbw-generic.c:163-179), the all-channel `update_status` path: the
action taken on channel `cntr`'s output.  The loop treats each channel
independently with that channel's own `brightness` and `max_brightness`;
as in `pulse_color_update`, the device-tree probe path has null
`pb->notify` / `pb->notify_after` hooks. -/
def rgbw_color_update_chan (pb : PwmRgbwData) (dev : RgbwDevice)
    (timerActive : Color → Bool) (cntr : Color) : ChanAction :=
  let brightness := (dev.props cntr).brightness
  let max := (dev.props cntr).max_brightness
  if pb.types cntr = RgbwType.pwm then
    if brightness = 0 then
      ChanAction.disableOut
    else
      ChanAction.configOut (dutyExpr pb.period pb.lth_brightness (rawDuty pb brightness) (toU32 max)) pb.period
  else if pb.types cntr = RgbwType.gpio ∧ ¬ timerActive cntr then
    ChanAction.armSoftTimer
  else
    ChanAction.noAction

/-- Return value of an hrtimer callback: `HRTIMER_RESTART` after a
`hrtimer_forward` by `delayNs` (a `ktime_t`, i.e. signed 64-bit
nanoseconds), or `HRTIMER_NORESTART`. -/
inductive HrtimerRestart
  | restart (delayNs : Int)
  | norestart
deriving DecidableEq

/-- Result of one firing of the soft-PWM GPIO timer callback on the
matched channel: the level written to the GPIO (which is also stored back
into `soft_pwm[c].value`) and the callback's return. -/
structure GpioFire where
  value : Int
  restart : HrtimerRestart
deriving DecidableEq

/-- Embeds `rgbw_gpio_hrtimer_callback` (leds-rgbw-generic.c:362-409).
The loop scans channels in R-G-B-W order for a GPIO channel whose timer is
`hrtimer_callback_running`; since exactly the firing channel's timer is
running its own callback, the loop acts on `firing` when that channel is
GPIO-backed and otherwise matches nothing.  `oldValue` is
`pb->soft_pwm[firing].value` on entry.  Returns `none` when no channel
matched (no GPIO write; `hrtimer_next_tick` stays 0 so the timer stops),
else the written level and the return computed from
`ktime_compare(hrtimer_next_tick, ktime_set(0,0)) > 0`. -/
def rgbw_gpio_hrtimer_callback (pb : PwmRgbwData) (dev : RgbwDevice)
    (oldValue : Int) (firing : Color) : Option GpioFire :=
  if pb.types firing = RgbwType.gpio then
    let brightness := (dev.props firing).brightness
    let max := (dev.props firing).max_brightness
    if brightness ≥ max then
      some ⟨1, HrtimerRestart.norestart⟩
    else if brightness = 0 then
      some ⟨0, HrtimerRestart.norestart⟩
    else
      let value := 1 - oldValue
      let pulseNs := toU32 brightness * pb.lth_brightness % U32
      let nextToggle := if value ≠ 0 then pulseNs else sub64 pb.period pulseNs
      let tick := toS64 nextToggle
      if 0 < tick then
        some ⟨value, HrtimerRestart.restart tick⟩
      else
        some ⟨value, HrtimerRestart.norestart⟩
  else
    none

/-- Update one channel's properties, leaving the other channels alone. -/
def updateProps (d : RgbwDevice) (c : Color) (f : RgbwProperties → RgbwProperties) : RgbwDevice :=
  { d with props := fun x => if x = c then f (d.props x) else d.props x }

/-- Overwrite the effect step counter `acts.bstate`. -/
def setBstate (d : RgbwDevice) (s : Int) : RgbwDevice :=
  { d with acts := { d.acts with bstate := s } }

/-- The bounds-checked table index of the pulse callback
(leds-rgbw-generic.c:342-343): `cntr` is reset to 0 when it is at least
`ARRAY_SIZE(pulse_val_table)`, and is used as the read index otherwise. -/
def pulseIdx (c : Nat) : Nat :=
  if c ≥ pulse_val_table.length then 0 else c

/-- Embeds `rgbw_pulse_hrtimer_callback` (leds-rgbw-generic.c:331-355):
when `RGBW_PULSE_ON` is set, write `pulse_val_table[cntr]` to the targeted
channel's brightness, advance `cntr` (resetting it first when out of
range), push the channel update (hardware side effect, modelled by
`pulse_color_update`), and restart after `PULSE_VALUE_PER_NS`. -/
def rgbw_pulse_hrtimer_callback (d : RgbwDevice) : RgbwDevice × HrtimerRestart :=
  if d.acts.state &&& RGBW_PULSE_ON ≠ 0 then
    let pcolor := d.acts.pcolor
    let c1 := pulseIdx (d.props pcolor).cntr
    let d1 := updateProps d pcolor fun p =>
      { p with brightness := ((pulse_val_table.getD c1 0 : Nat) : Int), cntr := c1 + 1 }
    (d1, HrtimerRestart.restart (PULSE_VALUE_PER_NS : Nat))
  else
    (d, HrtimerRestart.norestart)

/-- Embeds `rgbw_blink_hrtimer_callback` (leds-rgbw-generic.c:299-323):
when `RGBW_BLINK_ON` is set, drive all channels to 0 when `bstate` is 0
and to the saved `rgbw_values` otherwise, toggle `bstate`, and restart
after `BLINK_STATE_PER_NS`. -/
def rgbw_blink_hrtimer_callback (d : RgbwDevice) : RgbwDevice × HrtimerRestart :=
  if d.acts.state &&& RGBW_BLINK_ON ≠ 0 then
    let bstate := d.acts.bstate
    let d1 : RgbwDevice :=
      { props := fun c =>
          { d.props c with brightness := if bstate = 0 then 0 else d.acts.rgbw_values c },
        acts := { d.acts with bstate := if bstate = 0 then 1 else 0 } }
    (d1, HrtimerRestart.restart (BLINK_STATE_PER_NS : Nat))
  else
    (d, HrtimerRestart.norestart)

/-- Embeds `rgbw_hb_hrtimer_callback` (leds-rgbw-generic.c:264-291): when
`RGBW_HB_ON` is set, drive all channels to 0 on odd `bstate` and to the
saved `rgbw_values` on even `bstate` (the C test `(bstate % 2)` is
evenness, which `Int.emod` decides identically to C's truncated `%`),
step `bstate` through 0,1,2,3,0,…, and restart after 100 ms for steps
0-2 and after 700 ms for step 3. -/
def rgbw_hb_hrtimer_callback (d : RgbwDevice) : RgbwDevice × HrtimerRestart :=
  if d.acts.state &&& RGBW_HB_ON ≠ 0 then
    let bstate := d.acts.bstate
    let d1 : RgbwDevice :=
      { props := fun c =>
          { d.props c with brightness := if bstate % 2 ≠ 0 then 0 else d.acts.rgbw_values c },
        acts := { d.acts with bstate := if bstate < 3 then bstate + 1 else 0 } }
    (d1, HrtimerRestart.restart (if bstate < 3 then 100000000 else 700000000))
  else
    (d, HrtimerRestart.norestart)

/-- Embeds `rgbw_rb_hrtimer_callback` (leds-rgbw-generic.c:200-256): when
`RGBW_RB_ON` is set, one channel's brightness is stepped according to the
6-state color wheel (the state advances when the post-step brightness
passes the bound tested by the C code), the device is refreshed
(hardware side effect, modelled by `rgbw_color_update_chan`), and the
timer restarts after `PULSE_VALUE_PER_NS`. -/
def rgbw_rb_hrtimer_callback (d : RgbwDevice) : RgbwDevice × HrtimerRestart :=
  if d.acts.state &&& RGBW_RB_ON ≠ 0 then
    let bstate := d.acts.bstate
    let d1 : RgbwDevice :=
      if bstate = 0 then
        let g := (d.props Color.green).brightness + 1
        let da := updateProps d Color.green fun p => { p with brightness := g }
        if g > (d.props Color.green).max_brightness - 1 then setBstate da 1 else da
      else if bstate = 1 then
        let r := (d.props Color.red).brightness - 1
        let da := updateProps d Color.red fun p => { p with brightness := r }
        if r < 1 then setBstate da 2 else da
      else if bstate = 2 then
        let b := (d.props Color.blue).brightness + 1
        let da := updateProps d Color.blue fun p => { p with brightness := b }
        if b > (d.props Color.blue).max_brightness - 1 then setBstate da 3 else da
      else if bstate = 3 then
        let g := (d.props Color.green).brightness - 1
        let da := updateProps d Color.green fun p => { p with brightness := g }
        if g < 1 then setBstate da 4 else da
      else if bstate = 4 then
        let r := (d.props Color.red).brightness + 1
        let da := updateProps d Color.red fun p => { p with brightness := r }
        if r > (d.props Color.red).max_brightness - 1 then setBstate da 5 else da
      else if bstate = 5 then
        let b := (d.props Color.blue).brightness - 1
        let da := updateProps d Color.blue fun p => { p with brightness := b }
        if b < 1 then setBstate da 0 else da
      else
        let da :=
          { props := fun c =>
              { d.props c with brightness :=
                  if c = Color.red then (d.props Color.red).max_brightness else 0 },
            acts := d.acts }
        setBstate da 0
    (d1, HrtimerRestart.restart (PULSE_VALUE_PER_NS : Nat))
  else
    (d, HrtimerRestart.norestart)

/-- Iterate an effect callback: the device state after `n` firings. -/
def iterateDev (f : RgbwDevice → RgbwDevice × HrtimerRestart) : Nat → RgbwDevice → RgbwDevice
  | 0, d => d
  | n + 1, d => (f (iterateDev f n d)).1

/-- Embeds `rgbw_parse_dt` (leds-rgbw-generic.c:489-527) restricted to the
"brightness-levels" handling that determines `max_brightness` and
`levels`.  `prop` is the property's value as a list of u32s (`none` =
property absent).  The property-absent case fails with `-EINVAL`; a
present property gives `max_brightness = length` u32s, and when that is
positive the levels are kept and `max_brightness` is decremented; an
empty property leaves `levels` null and `max_brightness = 0` and
succeeds.  (The other failure paths — missing node, allocation or u32
read failure — only make the function fail more often and are irrelevant
to the claims below.) -/
def rgbw_parse_dt (prop : Option (List Nat)) : Except Int (Option (List Nat) × Nat) :=
  match prop with
  | none => Except.error (-22)
  | some ls =>
      if ls.length > 0 then
        Except.ok (some ls, ls.length - 1)
      else
        Except.ok (none, ls.length)

/-- Embeds the `max` computation of `rgbw_dt_probe`
(leds-rgbw-generic.c:602-606): `max = data->levels[data->max_brightness]`
when a levels table exists, else `max = data->max_brightness`. -/
def probe_max (levels : Option (List Nat)) (max_brightness : Nat) : Nat :=
  match levels with
  | some ls => ls.getD max_brightness 0
  | none => max_brightness

/-- C unsigned division, modelled as `Option`: `none` is division by zero,
which is undefined behavior in C. -/
def c_udiv (a b : Nat) : Option Nat :=
  if b = 0 then none else some (a / b)

/-- Embeds line 749 of `rgbw_dt_probe`:
`pb->lth_brightness = (pb->period / max);`. -/
def probe_lth (period max : Nat) : Option Nat := c_udiv period max

/-! ## Concrete devices used by the witnesses and counterexamples -/

/-- A device running the pulse effect on the red channel, tick counter 0. -/
def pulseDev : RgbwDevice :=
  { props := fun _ => { brightness := 0, max_brightness := 255, cntr := 0 },
    acts := { state := RGBW_PULSE_ON, bstate := 0, pcolor := Color.red,
              rgbw_values := fun _ => 0 } }

/-- A device running the heartbeat effect with saved values `[200,0,0,0]`. -/
def hbDev : RgbwDevice :=
  { props := fun _ => { brightness := 0, max_brightness := 255, cntr := 0 },
    acts := { state := RGBW_HB_ON, bstate := 0, pcolor := Color.red,
              rgbw_values := fun c => if c = Color.red then 200 else 0 } }

/-- A device running the rainbow effect in state 0 with Red 255, Green 0,
Blue 0, all `max_brightness` 255. -/
def rbDev : RgbwDevice :=
  { props := fun c =>
      { brightness := if c = Color.red then 255 else 0, max_brightness := 255, cntr := 0 },
    acts := { state := RGBW_RB_ON, bstate := 0, pcolor := Color.red,
              rgbw_values := fun _ => 0 } }

/-- A device in rainbow state 0 whose Green channel already sits at its
`max_brightness`: every brightness satisfies the invariant
`brightness ≤ max_brightness`, yet one rainbow firing pushes Green past it. -/
def rbMaxDev : RgbwDevice :=
  { props := fun _ => { brightness := 255, max_brightness := 255, cntr := 0 },
    acts := { state := RGBW_RB_ON, bstate := 0, pcolor := Color.red,
              rgbw_values := fun _ => 0 } }

/-- A driver configuration with hardware-PWM red/green/blue channels and a
GPIO-backed white channel, the default 7.65 ms period and
`lth_brightness = period / 255`. -/
def pbMix : PwmRgbwData :=
  { types := fun c => if c = Color.white then RgbwType.gpio else RgbwType.pwm,
    period := 7650000,
    lth_brightness := 30000,
    levels := none }

/-- A device whose channels all sit at brightness 100 of 255. -/
def dev100 : RgbwDevice :=
  { props := fun _ => { brightness := 100, max_brightness := 255, cntr := 0 },
    acts := { state := 0, bstate := 0, pcolor := Color.red,
              rgbw_values := fun _ => 0 } }

/-- A device with no effect bit set. -/
def idleDev : RgbwDevice :=
  { props := fun _ => { brightness := 17, max_brightness := 255, cntr := 3 },
    acts := { state := 0, bstate := 2, pcolor := Color.blue,
              rgbw_values := fun _ => 40 } }

/-- A device with all four effect bits set, all channels within range, used
to instantiate the invariant-preservation theorem. -/
def allOnDev : RgbwDevice :=
  { props := fun _ => { brightness := 10, max_brightness := 255, cntr := 0 },
    acts := { state := RGBW_PULSE_ON ||| RGBW_BLINK_ON ||| RGBW_HB_ON ||| RGBW_RB_ON,
              bstate := 0, pcolor := Color.red, rgbw_values := fun _ => 30 } }

end Rgbw

namespace Rgbw

/-! ## Theorems -/

/-- In-range C unsigned subtraction is plain subtraction. -/
theorem sub32_of_le (a b : Nat) (hb : b ≤ a) (ha : a < U32) : sub32 a b = a - b := by
  have hb32 : b < U32 := lt_of_le_of_lt hb ha
  unfold sub32
  rw [Nat.mod_eq_of_lt ha, Nat.mod_eq_of_lt hb32]
  have h1 : a + (U32 - b) = U32 + (a - b) := by
    have : (0:Nat) < U32 := by decide
    omega
  rw [h1, Nat.add_mod_left, Nat.mod_eq_of_lt (by omega)]

/-- In-range C u64 subtraction is plain subtraction. -/
theorem sub64_of_le (a b : Nat) (hb : b ≤ a) (ha : a < U64) : sub64 a b = a - b := by
  have hb64 : b < U64 := lt_of_le_of_lt hb ha
  unfold sub64
  rw [Nat.mod_eq_of_lt ha, Nat.mod_eq_of_lt hb64]
  have h1 : a + (U64 - b) = U64 + (a - b) := by
    have : (0:Nat) < U64 := by decide
    omega
  rw [h1, Nat.add_mod_left, Nat.mod_eq_of_lt (by omega)]

/-- In-range int-to-unsigned conversion is `Int.toNat`. -/
theorem toU32_of_nonneg (i : Int) (h0 : 0 ≤ i) (h1 : i < (U32 : Nat)) : toU32 i = i.toNat := by
  unfold toU32
  rw [Int.emod_eq_of_lt h0 (by exact_mod_cast h1)]

/-- When no intermediate value overflows 32 bits, the C duty-cycle
expression equals the spec's formula
`lth_brightness_ns + raw * (period_ns - lth_brightness_ns) / max_brightness`
in exact (unbounded) natural-number arithmetic. -/
theorem dutyExpr_eq (period lth raw max : Nat)
    (hl : lth ≤ period) (hp : period < U32)
    (hm : raw * (period - lth) < U32)
    (hs : lth + raw * (period - lth) / max < U32) :
    dutyExpr period lth raw max = lth + raw * (period - lth) / max := by
  unfold dutyExpr
  rw [sub32_of_le _ _ hl hp, Nat.mod_eq_of_lt hm, Nat.mod_eq_of_lt hs]

/-- In-range u64-to-`ktime_t` conversion is the plain value. -/
theorem toS64_of_lt (n : Nat) (h : n < 2 ^ 63) : toS64 n = (n : Int) := by
  unfold toS64
  have h64 : n < U64 := lt_trans h (by norm_num [U64])
  rw [Nat.mod_eq_of_lt h64, if_pos h]

/-- `updateProps` leaves the effect state untouched. -/
theorem updateProps_acts (d : RgbwDevice) (c : Color) (f : RgbwProperties → RgbwProperties) :
    (updateProps d c f).acts = d.acts := rfl

/-- `updateProps` applies `f` at the selected channel. -/
theorem updateProps_props_self (d : RgbwDevice) (c : Color) (f : RgbwProperties → RgbwProperties) :
    (updateProps d c f).props c = f (d.props c) := by
  simp [updateProps]

/-- `updateProps` leaves the other channels untouched. -/
theorem updateProps_props_other (d : RgbwDevice) (c x : Color)
    (f : RgbwProperties → RgbwProperties) (h : x ≠ c) :
    (updateProps d c f).props x = d.props x := by
  simp [updateProps, h]

/-- `setBstate` leaves the channels untouched. -/
theorem setBstate_props (d : RgbwDevice) (s : Int) : (setBstate d s).props = d.props := rfl

/-- Whether or not a rainbow step advances `bstate`, the channels are those
of the intermediate device. -/
theorem ite_setBstate_props (P : Prop) [Decidable P] (da : RgbwDevice) (k : Int) :
    (if P then setBstate da k else da).props = da.props := by
  split <;> rfl

/-- The bounds-checked pulse index is always below 80, the table's length. -/
theorem pulseIdx_lt (c : Nat) : pulseIdx c < 80 := by
  unfold pulseIdx
  have hlen : pulse_val_table.length = 80 := by decide
  rw [hlen]
  split <;> omega

/-- Every in-range read of the pulse table yields a value at most 254. -/
theorem pulse_getD_le : ∀ j, j < 80 → pulse_val_table.getD j 0 ≤ 254 := by decide

/-- **C10.** In the pulse effect callback, for every non-negative starting
value of the per-channel tick counter, the table index actually used for
the read — `pulseIdx`, which `rgbw_pulse_hrtimer_callback` applies to
`props[pcolor].cntr` before indexing, resetting it to 0 whenever it is at
least the table's length — is always strictly within the bounds of
`pulse_val_table`. -/
theorem pulse_index_always_in_bounds (c : Nat) : pulseIdx c < pulse_val_table.length := by
  unfold pulseIdx
  split
  · decide
  · omega

/-- Invariant of repeated pulse-callback firings: the active-effect state
and the targeted channel are preserved, and the bounds-checked index the
next firing will read is the firing count modulo the table length 80. -/
theorem pulse_iter_inv (d : RgbwDevice) (p : Color)
    (hmask : d.acts.state &&& RGBW_PULSE_ON ≠ 0)
    (hp : d.acts.pcolor = p)
    (hc : (d.props p).cntr = 0) :
    ∀ n, (iterateDev rgbw_pulse_hrtimer_callback n d).acts.state = d.acts.state ∧
      (iterateDev rgbw_pulse_hrtimer_callback n d).acts.pcolor = p ∧
      pulseIdx ((iterateDev rgbw_pulse_hrtimer_callback n d).props p).cntr = n % 80 := by
  intro n
  induction n with
  | zero =>
      refine ⟨rfl, hp, ?_⟩
      simp [iterateDev, hc, pulseIdx]
  | succ n ih =>
      obtain ⟨hs, hpc, hidx⟩ := ih
      have hguard :
          (iterateDev rgbw_pulse_hrtimer_callback n d).acts.state &&& RGBW_PULSE_ON ≠ 0 := by
        rw [hs]; exact hmask
      refine ⟨?_, ?_, ?_⟩
      · simpa [iterateDev, rgbw_pulse_hrtimer_callback, hguard, updateProps] using hs
      · simpa [iterateDev, rgbw_pulse_hrtimer_callback, hguard, updateProps] using hpc
      · simp [iterateDev, rgbw_pulse_hrtimer_callback, hguard, updateProps, hpc]
        rw [hidx]
        have h80 : n % 80 < 80 := Nat.mod_lt _ (by norm_num)
        unfold pulseIdx
        have hlen : pulse_val_table.length = 80 := by decide
        rw [hlen]
        split <;> omega

/-- The brightness written by the `(n+1)`-st pulse firing is
`pulse_val_table[n % 80]`. -/
theorem pulse_seq (d : RgbwDevice) (p : Color)
    (hmask : d.acts.state &&& RGBW_PULSE_ON ≠ 0)
    (hp : d.acts.pcolor = p)
    (hc : (d.props p).cntr = 0) :
    ∀ n, ((iterateDev rgbw_pulse_hrtimer_callback (n + 1) d).props p).brightness =
      ((pulse_val_table.getD (n % 80) 0 : Nat) : Int) := by
  intro n
  obtain ⟨hs, hpc, hidx⟩ := pulse_iter_inv d p hmask hp hc n
  have hguard :
      (iterateDev rgbw_pulse_hrtimer_callback n d).acts.state &&& RGBW_PULSE_ON ≠ 0 := by
    rw [hs]; exact hmask
  simp [iterateDev, rgbw_pulse_hrtimer_callback, hguard, updateProps, hpc, hidx]

/-- **C4 (counterexample).** The pulse table does not have 75 entries and
the produced brightness sequence does not repeat with period 75: the table
`pulse_val_table` has exactly 80 entries, and from a zero tick counter the
76th firing writes brightness 1 (= `pulse_val_table[75]`), not the 0 a
period-75 repeat of the 1st firing (brightness 0) would give. -/
theorem pulse_table_period_counterexample :
    pulse_val_table.length = 80 ∧ pulse_val_table.length ≠ 75 ∧
    ((iterateDev rgbw_pulse_hrtimer_callback 76 pulseDev).props Color.red).brightness = 1 ∧
    ((iterateDev rgbw_pulse_hrtimer_callback 1 pulseDev).props Color.red).brightness = 0 := by
  have h := pulse_seq pulseDev Color.red (by decide) (by decide) (by decide)
  refine ⟨by decide, by decide, ?_, ?_⟩
  · exact (h 75).trans (by decide)
  · exact (h 0).trans (by decide)

/-- **C4 (amended).** The pulse table is a fixed sequence of exactly 80
brightness values in 0..254, and while the pulse effect is active with the
targeted channel's tick counter starting at 0, the `(n+1)`-st firing
writes `pulse_val_table[n % 80]` to that channel's brightness — the index
advances by one per tick and wraps to 0 after index 79 — so the produced
brightness sequence repeats with period 80. -/
theorem pulse_table_sequence (d : RgbwDevice) (p : Color)
    (hmask : d.acts.state &&& RGBW_PULSE_ON ≠ 0)
    (hp : d.acts.pcolor = p)
    (hc : (d.props p).cntr = 0) :
    pulse_val_table.length = 80 ∧
    (∀ j, j < 80 → pulse_val_table.getD j 0 ≤ 254) ∧
    (∀ n, ((iterateDev rgbw_pulse_hrtimer_callback (n + 1) d).props p).brightness =
       ((pulse_val_table.getD (n % 80) 0 : Nat) : Int)) ∧
    (∀ n, ((iterateDev rgbw_pulse_hrtimer_callback (n + 80 + 1) d).props p).brightness =
       ((iterateDev rgbw_pulse_hrtimer_callback (n + 1) d).props p).brightness) := by
  refine ⟨by decide, pulse_getD_le, pulse_seq d p hmask hp hc, fun n => ?_⟩
  rw [pulse_seq d p hmask hp hc, pulse_seq d p hmask hp hc]
  congr 2
  omega

/-- Witness for C4 (amended): on a concrete pulse device the sixth firing
writes `pulse_val_table[5] = 6`. -/
theorem pulse_table_sequence_witness :
    pulse_val_table.length = 80 ∧
    ((iterateDev rgbw_pulse_hrtimer_callback 6 pulseDev).props Color.red).brightness = 6 := by
  have h := pulse_table_sequence pulseDev Color.red (by decide) (by decide) (by decide)
  exact ⟨h.1, (h.2.2.1 5).trans (by decide)⟩

/-- **C9.** For each of the four effect timer callbacks (pulse, blink,
heartbeat, rainbow): whenever the callback fires while that effect's bit
is not set in `acts.state`, the callback returns `HRTIMER_NORESTART` and
leaves the device — every channel's brightness and the whole effect
state — unchanged. -/
theorem inactive_effect_callbacks_are_noops (d : RgbwDevice) :
    (d.acts.state &&& RGBW_PULSE_ON = 0 →
      rgbw_pulse_hrtimer_callback d = (d, HrtimerRestart.norestart)) ∧
    (d.acts.state &&& RGBW_BLINK_ON = 0 →
      rgbw_blink_hrtimer_callback d = (d, HrtimerRestart.norestart)) ∧
    (d.acts.state &&& RGBW_HB_ON = 0 →
      rgbw_hb_hrtimer_callback d = (d, HrtimerRestart.norestart)) ∧
    (d.acts.state &&& RGBW_RB_ON = 0 →
      rgbw_rb_hrtimer_callback d = (d, HrtimerRestart.norestart)) := by
  refine ⟨fun h => ?_, fun h => ?_, fun h => ?_, fun h => ?_⟩
  · simp [rgbw_pulse_hrtimer_callback, h]
  · simp [rgbw_blink_hrtimer_callback, h]
  · simp [rgbw_hb_hrtimer_callback, h]
  · simp [rgbw_rb_hrtimer_callback, h]

/-- Witness for C9: on a concrete device with no effect bit set, all four
callbacks return the device untouched and `HRTIMER_NORESTART`. -/
theorem inactive_effect_callbacks_are_noops_witness :
    rgbw_pulse_hrtimer_callback idleDev = (idleDev, HrtimerRestart.norestart) ∧
    rgbw_blink_hrtimer_callback idleDev = (idleDev, HrtimerRestart.norestart) ∧
    rgbw_hb_hrtimer_callback idleDev = (idleDev, HrtimerRestart.norestart) ∧
    rgbw_rb_hrtimer_callback idleDev = (idleDev, HrtimerRestart.norestart) := by
  have h := inactive_effect_callbacks_are_noops idleDev
  exact ⟨h.1 rfl, h.2.1 rfl, h.2.2.1 rfl, h.2.2.2 rfl⟩

/-- **C7.** The claim says a zero `max_brightness` configuration is
rejected at initialization before any division.  The code does not reject
it: a device-tree node whose "brightness-levels" property is present but
empty parses successfully (`rgbw_parse_dt` returns success with
`max_brightness = 0` and no levels table), `rgbw_dt_probe` then computes
`max = 0`, and line 749 performs `pb->period / max` with a zero divisor —
undefined behavior (modelled as `none`) instead of an initialization
error. -/
theorem zero_max_brightness_reaches_division_by_zero :
    rgbw_parse_dt (some []) = Except.ok (none, 0) ∧
    probe_max none 0 = 0 ∧
    probe_lth 7650000 (probe_max none 0) = none :=
  ⟨rfl, rfl, rfl⟩

/-- **C1.** On both channel-update paths — the all-channel `update_status`
path (`rgbw_color_update`) and the single-channel pulse update path
(`pulse_color_update`) — for every channel: (a) a hardware-PWM channel
with brightness 0 has its PWM output disabled; (b) a hardware-PWM channel
with brightness `b > 0` is configured with
`duty_ns = lth_brightness_ns + raw * (period_ns - lth_brightness_ns) / max_brightness`
where `raw = levels[b]` when a levels table is present and `raw = b`
otherwise (the range hypotheses keep every intermediate of the C
expression inside 32 bits, as in any real configuration); (c) a
GPIO-backed channel with brightness 0 also ends up with its output
disabled: the update path arms that channel's soft-PWM timer when it is
not already running, and the timer's next firing drives the GPIO Low and
does not reschedule. -/
theorem channel_update_duty_contract (pb : PwmRgbwData) (dev : RgbwDevice)
    (tA : Color → Bool) (c : Color) :
    (pb.types c = RgbwType.pwm → (dev.props c).brightness = 0 →
       pulse_color_update pb dev tA c = ChanAction.disableOut ∧
       rgbw_color_update_chan pb dev tA c = ChanAction.disableOut) ∧
    (pb.types c = RgbwType.pwm → 0 < (dev.props c).brightness →
       0 < (dev.props c).max_brightness →
       (dev.props c).max_brightness < (U32 : Nat) →
       pb.lth_brightness ≤ pb.period → pb.period < U32 →
       rawDuty pb (dev.props c).brightness * (pb.period - pb.lth_brightness) < U32 →
       rawDuty pb (dev.props c).brightness ≤ (dev.props c).max_brightness.toNat →
       pulse_color_update pb dev tA c =
         ChanAction.configOut
           (pb.lth_brightness +
             rawDuty pb (dev.props c).brightness * (pb.period - pb.lth_brightness) /
               (dev.props c).max_brightness.toNat)
           pb.period ∧
       rgbw_color_update_chan pb dev tA c =
         ChanAction.configOut
           (pb.lth_brightness +
             rawDuty pb (dev.props c).brightness * (pb.period - pb.lth_brightness) /
               (dev.props c).max_brightness.toNat)
           pb.period) ∧
    (pb.types c = RgbwType.gpio → (dev.props c).brightness = 0 →
       0 < (dev.props c).max_brightness →
       (tA c = false →
          pulse_color_update pb dev tA c = ChanAction.armSoftTimer ∧
          rgbw_color_update_chan pb dev tA c = ChanAction.armSoftTimer) ∧
       ∀ oldValue : Int,
         rgbw_gpio_hrtimer_callback pb dev oldValue c =
           some ⟨0, HrtimerRestart.norestart⟩) := by
  refine ⟨fun hty hb => ?_, fun hty hb hm hmU hl hp hov hraw => ?_, fun hty hb hm => ⟨fun hta => ?_, fun oldValue => ?_⟩⟩
  · constructor <;> simp [pulse_color_update, rgbw_color_update_chan, hty, hb]
  · have hb' : (dev.props c).brightness ≠ 0 := ne_of_gt hb
    have hmx0 : 0 < (dev.props c).max_brightness.toNat := by omega
    have hq : rawDuty pb (dev.props c).brightness * (pb.period - pb.lth_brightness) /
        (dev.props c).max_brightness.toNat ≤ pb.period - pb.lth_brightness := by
      calc rawDuty pb (dev.props c).brightness * (pb.period - pb.lth_brightness) /
            (dev.props c).max_brightness.toNat
          ≤ (dev.props c).max_brightness.toNat * (pb.period - pb.lth_brightness) /
            (dev.props c).max_brightness.toNat :=
            Nat.div_le_div_right (Nat.mul_le_mul_right _ hraw)
        _ = pb.period - pb.lth_brightness := Nat.mul_div_cancel_left _ hmx0
    have hs : pb.lth_brightness +
        rawDuty pb (dev.props c).brightness * (pb.period - pb.lth_brightness) /
          (dev.props c).max_brightness.toNat < U32 := by omega
    have htu : toU32 (dev.props c).max_brightness = (dev.props c).max_brightness.toNat :=
      toU32_of_nonneg _ (le_of_lt hm) hmU
    constructor <;>
      simp [pulse_color_update, rgbw_color_update_chan, hty, hb', htu,
        dutyExpr_eq _ _ _ _ hl hp hov hs]
  · have hng : pb.types c ≠ RgbwType.pwm := by rw [hty]; intro h; cases h
    constructor <;> simp [pulse_color_update, rgbw_color_update_chan, hty, hng, hta]
  · have hlt : ¬ ((dev.props c).brightness ≥ (dev.props c).max_brightness) := by
      rw [hb]; omega
    simp [rgbw_gpio_hrtimer_callback, hty, hb, hlt, hm]

/-- Witness for C1: the contract evaluated on a concrete configuration
(hardware-PWM red at the default 7.65 ms period, GPIO white): brightness 0
disables the red PWM on both paths; brightness 100 of 255 configures
`duty_ns = 30000 + 100 * 7620000 / 255 = 3018235`; the GPIO white channel
at brightness 0 arms the soft timer and its next firing drives Low and
stops. -/
theorem channel_update_duty_contract_witness :
    pulse_color_update pbMix pulseDev (fun _ => false) Color.red = ChanAction.disableOut ∧
    rgbw_color_update_chan pbMix pulseDev (fun _ => false) Color.red = ChanAction.disableOut ∧
    pulse_color_update pbMix dev100 (fun _ => false) Color.red =
      ChanAction.configOut 3018235 7650000 ∧
    rgbw_color_update_chan pbMix dev100 (fun _ => false) Color.red =
      ChanAction.configOut 3018235 7650000 ∧
    pulse_color_update pbMix pulseDev (fun _ => false) Color.white = ChanAction.armSoftTimer ∧
    rgbw_gpio_hrtimer_callback pbMix pulseDev 0 Color.white =
      some ⟨0, HrtimerRestart.norestart⟩ := by
  have h0 := channel_update_duty_contract pbMix pulseDev (fun _ => false) Color.red
  have h1 := channel_update_duty_contract pbMix dev100 (fun _ => false) Color.red
  have h2 := channel_update_duty_contract pbMix pulseDev (fun _ => false) Color.white
  have ha := h0.1 (by decide) (by decide)
  have hbb := h1.2.1 (by decide) (by decide) (by decide) (by decide) (by decide) (by decide)
    (by decide) (by decide)
  have hc := h2.2.2 (by decide) (by decide) (by decide)
  exact ⟨ha.1, ha.2, hbb.1.trans (by decide), hbb.2.trans (by decide),
    (hc.1 rfl).1, hc.2 0⟩

/-- **C8 (counterexample).** The claim's strict lower bound
`lth_brightness_ns < duty_ns` fails for the exact integer arithmetic of
the implementation: with `period_ns = 3` and `max_brightness = 3` (so
`lth_brightness_ns = period_ns / max_brightness = 1`), brightness `b = 1`
satisfies `0 < b < max_brightness`, yet the computed duty is
`1 + 1 * (3 - 1) / 3 = 1`, equal to `lth_brightness_ns` and not strictly
above it. -/
theorem duty_strict_lower_bound_fails :
    (3 : Nat) / 3 = 1 ∧
    dutyExpr 3 1 1 3 = 1 ∧
    ¬ (1 < dutyExpr 3 1 1 3) := by
  refine ⟨rfl, by decide, by decide⟩

/-- **C8 (amended).** In the no-lookup-table case with
`lth_brightness_ns = period_ns / max_brightness`, provided
`max_brightness ≤ period_ns - lth_brightness_ns` (which every realistic
configuration satisfies, but which the claim's unconditional strict lower
bound needs) and no 32-bit overflow
(`max_brightness * period_ns < 2^32`): for every brightness `b` with
`0 < b < max_brightness` the computed duty satisfies
`lth_brightness_ns < duty_ns < period_ns`; `b = 0` yields the disabled
output on the update path; and `b = max_brightness` yields
`duty_ns = period_ns` exactly. -/
theorem duty_bounds_no_levels (pb : PwmRgbwData) (mx : Nat)
    (hm0 : 0 < mx)
    (hlth : pb.lth_brightness = pb.period / mx)
    (hml : mx ≤ pb.period - pb.period / mx)
    (hov : mx * pb.period < U32) :
    (∀ b : Nat, 0 < b → b < mx →
       pb.lth_brightness < dutyExpr pb.period pb.lth_brightness b mx ∧
       dutyExpr pb.period pb.lth_brightness b mx < pb.period) ∧
    dutyExpr pb.period pb.lth_brightness mx mx = pb.period ∧
    (∀ dev tA c, pb.types c = RgbwType.pwm → (dev.props c).brightness = 0 →
       pulse_color_update pb dev tA c = ChanAction.disableOut ∧
       rgbw_color_update_chan pb dev tA c = ChanAction.disableOut) := by
  have hl : pb.lth_brightness ≤ pb.period := by
    rw [hlth]; exact Nat.div_le_self _ _
  have hpU : pb.period < U32 := lt_of_le_of_lt (Nat.le_mul_of_pos_left _ hm0) hov
  have hpl0 : 0 < pb.period - pb.lth_brightness := by
    rw [hlth]; omega
  refine ⟨fun b hb0 hbm => ?_, ?_, fun dev tA c hty hb => ?_⟩
  · have hmul : b * (pb.period - pb.lth_brightness) < U32 := by
      calc b * (pb.period - pb.lth_brightness) ≤ mx * pb.period :=
            Nat.mul_le_mul (le_of_lt hbm) (by omega)
        _ < U32 := hov
    have hq : b * (pb.period - pb.lth_brightness) / mx ≤ pb.period - pb.lth_brightness := by
      calc b * (pb.period - pb.lth_brightness) / mx
          ≤ mx * (pb.period - pb.lth_brightness) / mx :=
            Nat.div_le_div_right (Nat.mul_le_mul_right _ (le_of_lt hbm))
        _ = pb.period - pb.lth_brightness := Nat.mul_div_cancel_left _ hm0
    rw [dutyExpr_eq _ _ _ _ hl hpU hmul (by omega)]
    constructor
    · have h1 : 1 ≤ b * (pb.period - pb.lth_brightness) / mx := by
        rw [Nat.one_le_div_iff hm0]
        calc mx ≤ pb.period - pb.period / mx := hml
          _ = 1 * (pb.period - pb.lth_brightness) := by rw [hlth]; ring
          _ ≤ b * (pb.period - pb.lth_brightness) := Nat.mul_le_mul_right _ hb0
      omega
    · have h2 : b * (pb.period - pb.lth_brightness) / mx < pb.period - pb.lth_brightness := by
        rw [Nat.div_lt_iff_lt_mul hm0]
        calc b * (pb.period - pb.lth_brightness)
            < mx * (pb.period - pb.lth_brightness) :=
              (Nat.mul_lt_mul_right hpl0).mpr hbm
          _ = (pb.period - pb.lth_brightness) * mx := Nat.mul_comm _ _
      omega
  · have hmul : mx * (pb.period - pb.lth_brightness) < U32 :=
      lt_of_le_of_lt (Nat.mul_le_mul_left _ (by omega)) hov
    have hq : mx * (pb.period - pb.lth_brightness) / mx = pb.period - pb.lth_brightness :=
      Nat.mul_div_cancel_left _ hm0
    rw [dutyExpr_eq _ _ _ _ hl hpU hmul (by omega), hq]
    omega
  · exact (channel_update_duty_contract pb dev tA c).1 hty hb

/-- Witness for C8 (amended): at the default configuration
(`period_ns = 7650000`, `max_brightness = 255`,
`lth_brightness_ns = 30000`), brightness 1 gives a duty strictly between
30000 and 7650000, brightness 255 gives exactly 7650000, and brightness 0
disables the output. -/
theorem duty_bounds_no_levels_witness :
    (30000 < dutyExpr 7650000 30000 1 255 ∧ dutyExpr 7650000 30000 1 255 < 7650000) ∧
    dutyExpr 7650000 30000 255 255 = 7650000 ∧
    pulse_color_update pbMix pulseDev (fun _ => false) Color.red = ChanAction.disableOut := by
  have h := duty_bounds_no_levels pbMix 255 (by decide) (by decide) (by decide) (by decide)
  exact ⟨h.1 1 (by decide) (by decide), h.2.1,
    (h.2.2 pulseDev (fun _ => false) Color.red (by decide) (by decide)).1⟩

/-- **C5.** While the heartbeat effect is active with saved per-channel
values `[200,0,0,0]` and step counter 0, successive firings of its
callback set the four channel brightnesses through the cycle
`[200,0,0,0] → [0,0,0,0] → [200,0,0,0] → [0,0,0,0]`, with the next firing
scheduled 100 ms after each of the first three steps and 700 ms after the
fourth; after the fourth firing the step counter, the active-effect state
and the saved values are back to their initial values, so the cycle
repeats indefinitely. -/
theorem heartbeat_cycle (d : RgbwDevice)
    (hmask : d.acts.state &&& RGBW_HB_ON ≠ 0)
    (hb0 : d.acts.bstate = 0)
    (hv : ∀ c, d.acts.rgbw_values c = if c = Color.red then 200 else 0) :
    (∀ c, ((iterateDev rgbw_hb_hrtimer_callback 1 d).props c).brightness =
       if c = Color.red then 200 else 0) ∧
    (∀ c, ((iterateDev rgbw_hb_hrtimer_callback 2 d).props c).brightness = 0) ∧
    (∀ c, ((iterateDev rgbw_hb_hrtimer_callback 3 d).props c).brightness =
       if c = Color.red then 200 else 0) ∧
    (∀ c, ((iterateDev rgbw_hb_hrtimer_callback 4 d).props c).brightness = 0) ∧
    (rgbw_hb_hrtimer_callback d).2 = HrtimerRestart.restart 100000000 ∧
    (rgbw_hb_hrtimer_callback (iterateDev rgbw_hb_hrtimer_callback 1 d)).2 =
      HrtimerRestart.restart 100000000 ∧
    (rgbw_hb_hrtimer_callback (iterateDev rgbw_hb_hrtimer_callback 2 d)).2 =
      HrtimerRestart.restart 100000000 ∧
    (rgbw_hb_hrtimer_callback (iterateDev rgbw_hb_hrtimer_callback 3 d)).2 =
      HrtimerRestart.restart 700000000 ∧
    (iterateDev rgbw_hb_hrtimer_callback 4 d).acts.bstate = 0 ∧
    (iterateDev rgbw_hb_hrtimer_callback 4 d).acts.state = d.acts.state ∧
    (∀ c, (iterateDev rgbw_hb_hrtimer_callback 4 d).acts.rgbw_values c =
       d.acts.rgbw_values c) := by
  refine ⟨fun c => ?_, fun c => ?_, fun c => ?_, fun c => ?_, ?_, ?_, ?_, ?_, ?_, ?_,
    fun c => ?_⟩ <;>
    norm_num [iterateDev, rgbw_hb_hrtimer_callback, hmask, hb0, hv]

/-- Witness for C5: the heartbeat cycle evaluated on the concrete device
`hbDev` (saved values `[200,0,0,0]`). -/
theorem heartbeat_cycle_witness :
    ((iterateDev rgbw_hb_hrtimer_callback 1 hbDev).props Color.red).brightness = 200 ∧
    ((iterateDev rgbw_hb_hrtimer_callback 2 hbDev).props Color.red).brightness = 0 ∧
    (rgbw_hb_hrtimer_callback (iterateDev rgbw_hb_hrtimer_callback 3 hbDev)).2 =
      HrtimerRestart.restart 700000000 ∧
    (iterateDev rgbw_hb_hrtimer_callback 4 hbDev).acts.bstate = 0 := by
  have h := heartbeat_cycle hbDev (by decide) (by decide) (fun c => rfl)
  exact ⟨(h.1 Color.red).trans (by decide), h.2.1 Color.red,
    h.2.2.2.2.2.2.2.1, h.2.2.2.2.2.2.2.2.1⟩

/-- Invariant of repeated rainbow-callback firings in state 0 with
`max_brightness = 255` on Green, starting from Green 0 and Red 255: for
the first 254 firings the state stays 0, Green counts up one per firing
and Red is untouched. -/
theorem rb_ramp (d : RgbwDevice)
    (hmask : d.acts.state &&& RGBW_RB_ON ≠ 0)
    (hb0 : d.acts.bstate = 0)
    (hg : (d.props Color.green).brightness = 0)
    (hmg : (d.props Color.green).max_brightness = 255)
    (hr : (d.props Color.red).brightness = 255) :
    ∀ n, n ≤ 254 →
      (iterateDev rgbw_rb_hrtimer_callback n d).acts.state = d.acts.state ∧
      (iterateDev rgbw_rb_hrtimer_callback n d).acts.bstate = 0 ∧
      ((iterateDev rgbw_rb_hrtimer_callback n d).props Color.green).brightness = (n : Int) ∧
      ((iterateDev rgbw_rb_hrtimer_callback n d).props Color.green).max_brightness = 255 ∧
      ((iterateDev rgbw_rb_hrtimer_callback n d).props Color.red).brightness = 255 := by
  intro n
  induction n with
  | zero =>
      intro _
      exact ⟨rfl, hb0, by simpa [iterateDev] using hg, by simpa [iterateDev] using hmg,
        by simpa [iterateDev] using hr⟩
  | succ n ih =>
      intro hle
      obtain ⟨hs, hbst, hgn, hmgn, hrn⟩ := ih (le_trans (Nat.le_succ n) hle)
      have hguard :
          (iterateDev rgbw_rb_hrtimer_callback n d).acts.state &&& RGBW_RB_ON ≠ 0 := by
        rw [hs]; exact hmask
      have hngt : ¬ ((254 : Int) < (n : Int) + 1) := by omega
      refine ⟨?_, ?_, ?_, ?_, ?_⟩
      · simpa [iterateDev, rgbw_rb_hrtimer_callback, hguard, hbst, hgn, hmgn, hngt,
          updateProps] using hs
      · simp [iterateDev, rgbw_rb_hrtimer_callback, hguard, hbst, hgn, hmgn, hngt,
          updateProps]
      · simp [iterateDev, rgbw_rb_hrtimer_callback, hguard, hbst, hgn, hmgn, hngt,
          updateProps]
      · simp [iterateDev, rgbw_rb_hrtimer_callback, hguard, hbst, hgn, hmgn, hngt,
          updateProps]
      · have hne : Color.red ≠ Color.green := by decide
        simp [iterateDev, rgbw_rb_hrtimer_callback, hguard, hbst, hgn, hmgn, hngt,
          updateProps, hne, hrn]

/-- The 255th rainbow firing in state 0 pushes Green to 255 (its maximum)
and advances the state to 1, leaving Red at 255. -/
theorem rb_ramp_final (d : RgbwDevice)
    (hmask : d.acts.state &&& RGBW_RB_ON ≠ 0)
    (hb0 : d.acts.bstate = 0)
    (hg : (d.props Color.green).brightness = 0)
    (hmg : (d.props Color.green).max_brightness = 255)
    (hr : (d.props Color.red).brightness = 255) :
    ((iterateDev rgbw_rb_hrtimer_callback 255 d).props Color.green).brightness = 255 ∧
    ((iterateDev rgbw_rb_hrtimer_callback 255 d).props Color.red).brightness = 255 ∧
    (iterateDev rgbw_rb_hrtimer_callback 255 d).acts.bstate = 1 := by
  obtain ⟨hs, hbst, hgn, hmgn, hrn⟩ := rb_ramp d hmask hb0 hg hmg hr 254 (le_refl _)
  have hguard :
      (iterateDev rgbw_rb_hrtimer_callback 254 d).acts.state &&& RGBW_RB_ON ≠ 0 := by
    rw [hs]; exact hmask
  have hgt : ((254 : Int) < ((254 : Nat) : Int) + 1) := by omega
  have hne : Color.red ≠ Color.green := by decide
  refine ⟨?_, ?_, ?_⟩
  · show ((rgbw_rb_hrtimer_callback (iterateDev rgbw_rb_hrtimer_callback 254 d)).1.props
      Color.green).brightness = 255
    simp [rgbw_rb_hrtimer_callback, hguard, hbst, hgn, hmgn, hgt, updateProps, setBstate]
  · show ((rgbw_rb_hrtimer_callback (iterateDev rgbw_rb_hrtimer_callback 254 d)).1.props
      Color.red).brightness = 255
    simp [rgbw_rb_hrtimer_callback, hguard, hbst, hgn, hmgn, hgt, updateProps, setBstate,
      hne, hrn]
  · show (rgbw_rb_hrtimer_callback (iterateDev rgbw_rb_hrtimer_callback 254 d)).1.acts.bstate
      = 1
    simp [rgbw_rb_hrtimer_callback, hguard, hbst, hgn, hmgn, hgt, updateProps, setBstate]

/-- **C6 (counterexample).** The claim says Green goes from 0 up to 254
over the 255 state-0 ticks.  On the concrete initial state (Red 255,
Green 0, Blue 0, all maxima 255, state 0), after 255 firings Green's
brightness is 255 — it reaches `max_brightness`, not 254. -/
theorem rainbow_state0_counterexample :
    ((iterateDev rgbw_rb_hrtimer_callback 255 rbDev).props Color.green).brightness = 255 ∧
    ((iterateDev rgbw_rb_hrtimer_callback 255 rbDev).props Color.green).brightness ≠ 254 := by
  have h := rb_ramp_final rbDev (by decide) (by decide) (by decide) (by decide) (by decide)
  exact ⟨h.1, by rw [h.1]; decide⟩

/-- **C6 (amended).** While the rainbow effect is active in state 0 with
`max_brightness = 255` on Green and initial brightnesses Red 255 and
Green 0: Red stays fixed at 255; Green increments by one per tick, so
after `n ≤ 254` ticks it equals `n` and the state is still 0; on the
255th tick Green reaches 255 (= `max_brightness`, not 254) and the state
then transitions to state 1. -/
theorem rainbow_state0_ramp (d : RgbwDevice)
    (hmask : d.acts.state &&& RGBW_RB_ON ≠ 0)
    (hb0 : d.acts.bstate = 0)
    (hg : (d.props Color.green).brightness = 0)
    (hmg : (d.props Color.green).max_brightness = 255)
    (hr : (d.props Color.red).brightness = 255) :
    (∀ n, n ≤ 254 →
       ((iterateDev rgbw_rb_hrtimer_callback n d).props Color.green).brightness = (n : Int) ∧
       ((iterateDev rgbw_rb_hrtimer_callback n d).props Color.red).brightness = 255 ∧
       (iterateDev rgbw_rb_hrtimer_callback n d).acts.bstate = 0) ∧
    ((iterateDev rgbw_rb_hrtimer_callback 255 d).props Color.green).brightness = 255 ∧
    ((iterateDev rgbw_rb_hrtimer_callback 255 d).props Color.red).brightness = 255 ∧
    (iterateDev rgbw_rb_hrtimer_callback 255 d).acts.bstate = 1 := by
  refine ⟨fun n hn => ?_, rb_ramp_final d hmask hb0 hg hmg hr⟩
  obtain ⟨_, hbst, hgn, _, hrn⟩ := rb_ramp d hmask hb0 hg hmg hr n hn
  exact ⟨hgn, hrn, hbst⟩

/-- Witness for C6 (amended): on the concrete device `rbDev`, after 10
ticks Green is 10, Red 255 and the state still 0; after 255 ticks Green
is 255 and the state is 1. -/
theorem rainbow_state0_ramp_witness :
    ((iterateDev rgbw_rb_hrtimer_callback 10 rbDev).props Color.green).brightness = 10 ∧
    ((iterateDev rgbw_rb_hrtimer_callback 10 rbDev).props Color.red).brightness = 255 ∧
    ((iterateDev rgbw_rb_hrtimer_callback 255 rbDev).props Color.green).brightness = 255 ∧
    (iterateDev rgbw_rb_hrtimer_callback 255 rbDev).acts.bstate = 1 := by
  have h := rainbow_state0_ramp rbDev (by decide) (by decide) (by decide) (by decide)
    (by decide)
  have h10 := h.1 10 (by norm_num)
  exact ⟨h10.1.trans (by decide), h10.2.1, h.2.1, h.2.2.2⟩

/-- **C3 (counterexample).** The invariant `brightness ≤ max_brightness`
is not preserved by every effect callback firing from every state
satisfying it: on `rbMaxDev` (rainbow active, state 0, every channel at
brightness 255 with `max_brightness` 255) the invariant holds, yet one
rainbow firing increments Green to 256, exceeding its maximum. -/
theorem brightness_bound_not_preserved :
    (∀ c, (rbMaxDev.props c).brightness ≤ (rbMaxDev.props c).max_brightness) ∧
    ¬ (((rgbw_rb_hrtimer_callback rbMaxDev).1.props Color.green).brightness ≤
        ((rgbw_rb_hrtimer_callback rbMaxDev).1.props Color.green).max_brightness) := by
  decide

/-- **C3 (amended).** Each effect callback preserves
`brightness ≤ max_brightness` on every channel under side conditions the
code itself does not enforce: the pulse effect needs the targeted
channel's `max_brightness` to be at least 254 (the table's peak value);
the blink and heartbeat effects need every saved `rgbw_values` entry to be
at most the channel's `max_brightness` and maxima to be nonnegative; the
rainbow effect needs the channel being incremented in the current state
(Green in state 0, Blue in state 2, Red in state 4) to be strictly below
its `max_brightness` before the firing.  Without these (see the
counterexample) a firing can push a brightness past its maximum. -/
theorem effect_callbacks_preserve_brightness_bound :
    (∀ d : RgbwDevice, d.acts.state &&& RGBW_PULSE_ON ≠ 0 →
       (∀ c, (d.props c).brightness ≤ (d.props c).max_brightness) →
       254 ≤ (d.props d.acts.pcolor).max_brightness →
       ∀ c, ((rgbw_pulse_hrtimer_callback d).1.props c).brightness ≤
         ((rgbw_pulse_hrtimer_callback d).1.props c).max_brightness) ∧
    (∀ d : RgbwDevice, d.acts.state &&& RGBW_BLINK_ON ≠ 0 →
       (∀ c, 0 ≤ (d.props c).max_brightness) →
       (∀ c, d.acts.rgbw_values c ≤ (d.props c).max_brightness) →
       ∀ c, ((rgbw_blink_hrtimer_callback d).1.props c).brightness ≤
         ((rgbw_blink_hrtimer_callback d).1.props c).max_brightness) ∧
    (∀ d : RgbwDevice, d.acts.state &&& RGBW_HB_ON ≠ 0 →
       (∀ c, 0 ≤ (d.props c).max_brightness) →
       (∀ c, d.acts.rgbw_values c ≤ (d.props c).max_brightness) →
       ∀ c, ((rgbw_hb_hrtimer_callback d).1.props c).brightness ≤
         ((rgbw_hb_hrtimer_callback d).1.props c).max_brightness) ∧
    (∀ d : RgbwDevice, d.acts.state &&& RGBW_RB_ON ≠ 0 →
       (∀ c, (d.props c).brightness ≤ (d.props c).max_brightness) →
       (∀ c, 0 ≤ (d.props c).max_brightness) →
       (d.acts.bstate = 0 →
          (d.props Color.green).brightness < (d.props Color.green).max_brightness) →
       (d.acts.bstate = 2 →
          (d.props Color.blue).brightness < (d.props Color.blue).max_brightness) →
       (d.acts.bstate = 4 →
          (d.props Color.red).brightness < (d.props Color.red).max_brightness) →
       ∀ c, ((rgbw_rb_hrtimer_callback d).1.props c).brightness ≤
         ((rgbw_rb_hrtimer_callback d).1.props c).max_brightness) := by
  refine ⟨fun d hmask hinv h254 c => ?_, fun d hmask hmax0 hvals c => ?_,
    fun d hmask hmax0 hvals c => ?_, fun d hmask hinv hmax0 h0 h2 h4 c => ?_⟩
  · have hval : pulse_val_table.getD (pulseIdx ((d.props d.acts.pcolor).cntr)) 0 ≤ 254 :=
      pulse_getD_le _ (pulseIdx_lt _)
    by_cases hc : c = d.acts.pcolor
    · have h2 : ((pulse_val_table.getD (pulseIdx ((d.props d.acts.pcolor).cntr)) 0 : Nat) :
          Int) ≤ 254 := by exact_mod_cast hval
      rw [List.getD_eq_getElem?_getD] at h2
      simp only [rgbw_pulse_hrtimer_callback]
      rw [if_pos hmask]
      simp [updateProps, hc]
      omega
    · simp only [rgbw_pulse_hrtimer_callback]
      rw [if_pos hmask]
      simp [updateProps, hc]
      exact hinv c
  · by_cases hb : d.acts.bstate = 0
    · simp [rgbw_blink_hrtimer_callback, hmask, hb]
      exact hmax0 c
    · simp [rgbw_blink_hrtimer_callback, hmask, hb]
      exact hvals c
  · by_cases hb : d.acts.bstate % 2 = 0
    · simp [rgbw_hb_hrtimer_callback, hmask, hb]
      exact hvals c
    · simp [rgbw_hb_hrtimer_callback, hmask, hb]
      exact hmax0 c
  · by_cases hb0 : d.acts.bstate = 0
    · by_cases hc : c = Color.green
      · have := h0 hb0
        simp [rgbw_rb_hrtimer_callback, hmask, hb0, ite_setBstate_props, updateProps, hc]
        omega
      · simp [rgbw_rb_hrtimer_callback, hmask, hb0, ite_setBstate_props, updateProps, hc]
        exact hinv c
    · by_cases hb1 : d.acts.bstate = 1
      · by_cases hc : c = Color.red
        · have := hinv Color.red
          simp [rgbw_rb_hrtimer_callback, hmask, hb0, hb1, ite_setBstate_props,
            updateProps, hc]
          omega
        · simp [rgbw_rb_hrtimer_callback, hmask, hb0, hb1, ite_setBstate_props,
            updateProps, hc]
          exact hinv c
      · by_cases hb2 : d.acts.bstate = 2
        · by_cases hc : c = Color.blue
          · have := h2 hb2
            simp [rgbw_rb_hrtimer_callback, hmask, hb0, hb1, hb2, ite_setBstate_props,
              updateProps, hc]
            omega
          · simp [rgbw_rb_hrtimer_callback, hmask, hb0, hb1, hb2, ite_setBstate_props,
              updateProps, hc]
            exact hinv c
        · by_cases hb3 : d.acts.bstate = 3
          · by_cases hc : c = Color.green
            · have := hinv Color.green
              simp [rgbw_rb_hrtimer_callback, hmask, hb0, hb1, hb2, hb3,
                ite_setBstate_props, updateProps, hc]
              omega
            · simp [rgbw_rb_hrtimer_callback, hmask, hb0, hb1, hb2, hb3,
                ite_setBstate_props, updateProps, hc]
              exact hinv c
          · by_cases hb4 : d.acts.bstate = 4
            · by_cases hc : c = Color.red
              · have := h4 hb4
                simp [rgbw_rb_hrtimer_callback, hmask, hb0, hb1, hb2, hb3, hb4,
                  ite_setBstate_props, updateProps, hc]
                omega
              · simp [rgbw_rb_hrtimer_callback, hmask, hb0, hb1, hb2, hb3, hb4,
                  ite_setBstate_props, updateProps, hc]
                exact hinv c
            · by_cases hb5 : d.acts.bstate = 5
              · by_cases hc : c = Color.blue
                · have := hinv Color.blue
                  simp [rgbw_rb_hrtimer_callback, hmask, hb0, hb1, hb2, hb3, hb4, hb5,
                    ite_setBstate_props, updateProps, hc]
                  omega
                · simp [rgbw_rb_hrtimer_callback, hmask, hb0, hb1, hb2, hb3, hb4, hb5,
                    ite_setBstate_props, updateProps, hc]
                  exact hinv c
              · by_cases hc : c = Color.red
                · simp [rgbw_rb_hrtimer_callback, hmask, hb0, hb1, hb2, hb3, hb4, hb5,
                    setBstate, hc]
                · simp [rgbw_rb_hrtimer_callback, hmask, hb0, hb1, hb2, hb3, hb4, hb5,
                    setBstate, hc]
                  exact hmax0 c

/-- Witness for C3 (amended): on `allOnDev` (all four effect bits set,
every brightness 10 of 255, saved values 30, rainbow state 0) each of the
four callbacks leaves every channel within its maximum; shown here for
the red channel. -/
theorem effect_callbacks_preserve_brightness_bound_witness :
    ((rgbw_pulse_hrtimer_callback allOnDev).1.props Color.red).brightness ≤
      ((rgbw_pulse_hrtimer_callback allOnDev).1.props Color.red).max_brightness ∧
    ((rgbw_blink_hrtimer_callback allOnDev).1.props Color.red).brightness ≤
      ((rgbw_blink_hrtimer_callback allOnDev).1.props Color.red).max_brightness ∧
    ((rgbw_hb_hrtimer_callback allOnDev).1.props Color.red).brightness ≤
      ((rgbw_hb_hrtimer_callback allOnDev).1.props Color.red).max_brightness ∧
    ((rgbw_rb_hrtimer_callback allOnDev).1.props Color.red).brightness ≤
      ((rgbw_rb_hrtimer_callback allOnDev).1.props Color.red).max_brightness := by
  have h := effect_callbacks_preserve_brightness_bound
  refine ⟨h.1 allOnDev (by decide) (by decide) (by decide) Color.red,
    h.2.1 allOnDev (by decide) (by decide) (by decide) Color.red,
    h.2.2.1 allOnDev (by decide) (by decide) (by decide) Color.red,
    h.2.2.2 allOnDev (by decide) (by decide) (by decide)
      (fun _ => by decide) (fun _ => by decide) (fun _ => by decide) Color.red⟩

/-- **C2.** Each firing of the soft-PWM timer callback for a GPIO-backed
channel: if `brightness >= max_brightness` the output is driven High (1)
and the timer is not rescheduled; else if `brightness == 0` the output is
driven Low (0) and the timer is not rescheduled; otherwise the level
flips to `1 - value`, `pulse_ns = brightness * lth_brightness_ns` is
computed, the output is driven to the new level and the timer is
rescheduled after `pulse_ns` when the new level is High (old level 0) and
after `period_ns - pulse_ns` when the new level is Low (old level 1).
The last part assumes `0 < lth_brightness_ns` and
`brightness * lth_brightness_ns < period_ns` — true of every
configuration produced by `rgbw_dt_probe`, where
`lth_brightness = period / max` — so that both delays are positive; with
a zero delay the C code would instead stop the timer. -/
theorem soft_pwm_timer_step (pb : PwmRgbwData) (dev : RgbwDevice) (oldValue : Int)
    (firing : Color) (hty : pb.types firing = RgbwType.gpio) :
    ((dev.props firing).brightness ≥ (dev.props firing).max_brightness →
       rgbw_gpio_hrtimer_callback pb dev oldValue firing =
         some ⟨1, HrtimerRestart.norestart⟩) ∧
    ((dev.props firing).brightness < (dev.props firing).max_brightness →
       (dev.props firing).brightness = 0 →
       rgbw_gpio_hrtimer_callback pb dev oldValue firing =
         some ⟨0, HrtimerRestart.norestart⟩) ∧
    (0 < (dev.props firing).brightness →
       (dev.props firing).brightness < (dev.props firing).max_brightness →
       (oldValue = 0 ∨ oldValue = 1) →
       0 < pb.lth_brightness →
       (dev.props firing).brightness.toNat * pb.lth_brightness < pb.period →
       pb.period < U32 →
       rgbw_gpio_hrtimer_callback pb dev oldValue firing =
         some ⟨1 - oldValue,
           HrtimerRestart.restart
             (if oldValue = 0
              then (dev.props firing).brightness * (pb.lth_brightness : Int)
              else (pb.period : Int) -
                (dev.props firing).brightness * (pb.lth_brightness : Int))⟩) := by
  refine ⟨fun h => ?_, fun hlt h0 => ?_, fun hb0 hbm hold hlth hbp hpU => ?_⟩
  · simp [rgbw_gpio_hrtimer_callback, hty, h]
  · have hn : ¬ ((dev.props firing).brightness ≥ (dev.props firing).max_brightness) :=
      not_le.mpr hlt
    have hmx : 0 < (dev.props firing).max_brightness := by omega
    simp [rgbw_gpio_hrtimer_callback, hty, hn, h0, hmx]
  · have hn : ¬ ((dev.props firing).brightness ≥ (dev.props firing).max_brightness) :=
      not_le.mpr hbm
    have hne : (dev.props firing).brightness ≠ 0 := ne_of_gt hb0
    have hbtU : (dev.props firing).brightness.toNat < U32 := by
      have h1 : (dev.props firing).brightness.toNat ≤
          (dev.props firing).brightness.toNat * pb.lth_brightness :=
        Nat.le_mul_of_pos_right _ hlth
      omega
    have htu : toU32 (dev.props firing).brightness = (dev.props firing).brightness.toNat := by
      refine toU32_of_nonneg _ (le_of_lt hb0) ?_
      omega
    have hpulse : (dev.props firing).brightness.toNat * pb.lth_brightness % U32 =
        (dev.props firing).brightness.toNat * pb.lth_brightness :=
      Nat.mod_eq_of_lt (by omega)
    have hp0 : 0 < (dev.props firing).brightness.toNat * pb.lth_brightness := by
      have : 0 < (dev.props firing).brightness.toNat := by omega
      exact Nat.mul_pos this hlth
    have hts : toS64 ((dev.props firing).brightness.toNat * pb.lth_brightness) =
        (((dev.props firing).brightness.toNat * pb.lth_brightness : Nat) : Int) := by
      refine toS64_of_lt _ ?_
      calc (dev.props firing).brightness.toNat * pb.lth_brightness
          < pb.period := hbp
        _ < U32 := hpU
        _ < 2 ^ 63 := by norm_num [U32]
    have hcast : (((dev.props firing).brightness.toNat * pb.lth_brightness : Nat) : Int) =
        (dev.props firing).brightness * (pb.lth_brightness : Int) := by
      push_cast [Int.toNat_of_nonneg (le_of_lt hb0)]
      ring
    rcases hold with h | h
    · subst h
      have hval : (1 : Int) - 0 ≠ 0 := by norm_num
      have hpos : (0 : Int) <
          (((dev.props firing).brightness.toNat * pb.lth_brightness : Nat) : Int) := by
        exact_mod_cast hp0
      have hpos' : (0 : Int) < (dev.props firing).brightness * (pb.lth_brightness : Int) := by
        rw [← hcast]; exact hpos
      simp [rgbw_gpio_hrtimer_callback, hty, hn, hne, htu, hpulse, hval, hts, hcast,
        hpos, hpos']
    · subst h
      have hval : ¬ ((1 : Int) - 1 ≠ 0) := by norm_num
      have hsub : sub64 pb.period ((dev.props firing).brightness.toNat * pb.lth_brightness) =
          pb.period - (dev.props firing).brightness.toNat * pb.lth_brightness := by
        refine sub64_of_le _ _ (le_of_lt hbp) ?_
        have : U32 < U64 := by norm_num [U32, U64]
        omega
      have hlow : 0 < pb.period - (dev.props firing).brightness.toNat * pb.lth_brightness := by
        omega
      have hts2 : toS64 (pb.period - (dev.props firing).brightness.toNat * pb.lth_brightness) =
          ((pb.period - (dev.props firing).brightness.toNat * pb.lth_brightness : Nat) : Int) := by
        refine toS64_of_lt _ ?_
        calc pb.period - (dev.props firing).brightness.toNat * pb.lth_brightness
            ≤ pb.period := Nat.sub_le _ _
          _ < U32 := hpU
          _ < 2 ^ 63 := by norm_num [U32]
      have hcast2 :
          ((pb.period - (dev.props firing).brightness.toNat * pb.lth_brightness : Nat) : Int) =
          (pb.period : Int) - (dev.props firing).brightness * (pb.lth_brightness : Int) := by
        rw [Nat.cast_sub (le_of_lt hbp), hcast]
      have hpos : (0 : Int) <
          ((pb.period - (dev.props firing).brightness.toNat * pb.lth_brightness : Nat) : Int) := by
        exact_mod_cast hlow
      have hpos' : (0 : Int) <
          (pb.period : Int) - (dev.props firing).brightness * (pb.lth_brightness : Int) := by
        rw [← hcast2]; exact hpos
      simp [rgbw_gpio_hrtimer_callback, hty, hn, hne, htu, hpulse, hval, hsub, hts2,
        hcast2, hpos, hpos']

/-- Witness for C2 on the `pbMix` configuration (GPIO white channel,
`period = 7650000`, `lth = 30000`): brightness 255 ≥ max drives High and
stops; brightness 0 drives Low and stops; brightness 100 with the output
currently Low flips it High and reschedules after
`pulse_ns = 100 * 30000 = 3000000`. -/
theorem soft_pwm_timer_step_witness :
    rgbw_gpio_hrtimer_callback pbMix
        { props := fun _ => { brightness := 255, max_brightness := 255, cntr := 0 },
          acts := pulseDev.acts } 0 Color.white =
      some ⟨1, HrtimerRestart.norestart⟩ ∧
    rgbw_gpio_hrtimer_callback pbMix pulseDev 0 Color.white =
      some ⟨0, HrtimerRestart.norestart⟩ ∧
    rgbw_gpio_hrtimer_callback pbMix dev100 0 Color.white =
      some ⟨1, HrtimerRestart.restart 3000000⟩ := by
  have h1 := soft_pwm_timer_step pbMix
    { props := fun _ => { brightness := 255, max_brightness := 255, cntr := 0 },
      acts := pulseDev.acts } 0 Color.white (by decide)
  have h2 := soft_pwm_timer_step pbMix pulseDev 0 Color.white (by decide)
  have h3 := soft_pwm_timer_step pbMix dev100 0 Color.white (by decide)
  refine ⟨h1.1 (by decide), h2.2.1 (by decide) (by decide), ?_⟩
  have := h3.2.2 (by decide) (by decide) (Or.inl rfl) (by decide) (by decide) (by decide)
  exact this.trans (by decide)

end Rgbw
